import Mathlib

/-!
Verification of the AudioVideoMonitor system extension
(`src/SystemExtension/`): a shallow embedding of the event dispatcher,
the device-access policy, the process registry, the audit store and the
periodic readers, with theorems about the behaviour the design document
describes.

Modelling conventions:
 - C strings and `std::string` become `String`; a possibly-null
   `path.data` pointer becomes `Option String`.
 - `strstr` / `std::string::find != npos` become `strContains`.
 - Machine integers (pids, uids, timestamps) are `Nat`; no arithmetic is
   performed on them by the embedded code, so overflow is irrelevant.
 - OS introspection calls (libproc, Mach, IOKit, the clock) are inputs:
   they are gathered in `OSEnv` / `IOKitEnv` records of oracles, one
   field per helper the code calls.
 - The SQLite tables become lists held in `ControllerState`, one per
   table; an `INSERT` is an append, `SELECT ... ORDER BY timestamp DESC
   LIMIT n` is an insertion sort by descending timestamp followed by
   `take n`.
 - `std::map<pid_t, ProcessInfo>` becomes the function
   `Nat → Option ProcessInfo`.
The repository contains two definitions of the callback
`AudioVideoController::handleESEvent` (one in `AudioVideoController.cpp`,
one in `ProcessMonitoring.cpp`); both are embedded, as
`handleESEventController` and `handleESEventMonitoring`.
-/

/-- `strstr(hay, pat) != NULL`, on explicit character lists:
`pat` occurs contiguously in `hay`. -/
def containsSub : List Char → List Char → Bool
  | [], pat => pat.isEmpty
  | h :: t, pat => pat.isPrefixOf (h :: t) || containsSub t pat

/-- Substring test on `String`, the embedding of `strstr` and of
`std::string::find(pat) != npos`. -/
def strContains (hay pat : String) : Bool :=
  containsSub hay.data pat.data

/-- `struct ProcessInfo` of `AudioVideoController.h` (lines 29-49).
Scalar fields the C++ code leaves uninitialized are modelled as
`0`/`false`/empty. -/
structure ProcessInfo where
  pid : Nat
  ppid : Nat
  executablePath : String
  commandLine : String
  bundleIdentifier : String
  uid : Nat
  gid : Nat
  startTime : Nat
  cpuTime : Nat
  memoryUsage : Nat
  openFiles : List String
  networkConnections : List String
  loadedLibraries : List String
  environmentVariables : List (String × String)
  isSystemProcess : Bool
  hasAudioAccess : Bool
  hasVideoAccess : Bool
  hasNetworkAccess : Bool
  hasFileSystemAccess : Bool
deriving DecidableEq

/-- `struct NetworkConnection` of `AudioVideoController.h` (lines 52-61). -/
structure NetworkConnection where
  protocol : String
  localAddress : String
  localPort : Nat
  remoteAddress : String
  remotePort : Nat
  state : String
  pid : Nat
  timestamp : Nat
deriving DecidableEq

/-- `struct FileAccess` of `AudioVideoController.h` (lines 64-71). -/
structure FileAccess where
  pid : Nat
  filePath : String
  accessType : String
  timestamp : Nat
  wasBlocked : Bool
  reason : String
deriving DecidableEq

/-- One row of the `system_calls` table (`logSystemCall`,
`DatabaseLogging.cpp` lines 118-138). -/
structure SyscallRecord where
  timestamp : Nat
  pid : Nat
  syscallName : String
  arguments : String
  returnValue : String
deriving DecidableEq

/-- One row of the `process_events` table (`logProcessEvent`,
`DatabaseLogging.cpp` lines 4-28). -/
structure ProcessEventRecord where
  timestamp : Nat
  pid : Nat
  ppid : Nat
  executablePath : String
  commandLine : String
  bundleIdentifier : String
  uid : Nat
  gid : Nat
  eventType : String
  cpuTime : Nat
  memoryUsage : Nat
  isSystemProcess : Bool
deriving DecidableEq

/-- The Endpoint Security event types the extension subscribes to
(`AudioVideoController.cpp` lines 56-104). -/
inductive ESEventType where
  | notifyExec
  | notifyExit
  | notifyFork
  | notifySignal
  | notifySetuid
  | notifySetgid
  | authOpen
  | notifyOpen
  | notifyClose
  | authCreate
  | notifyCreate
  | authUnlink
  | notifyUnlink
  | authRename
  | notifyRename
  | notifyWrite
  | notifyAccess
  | notifyChdir
  | notifyStat
  | notifyReaddir
  | notifyMmap
  | notifyMunmap
  | notifyMprotect
  | authKextload
  | notifyKextload
  | authExec
  | authFileProviderMaterialize
  | authFileProviderUpdate
  | notifyIokitOpen
  | notifyDup
  | authCopyfile
  | notifyCopyfile
  | authTruncate
  | notifyTruncate
deriving DecidableEq

/-- `es_action_type_t`: authorization-class versus notify-class. -/
inductive ESAction where
  | auth
  | notify
deriving DecidableEq

/-- `message->action_type`: `ES_EVENT_TYPE_AUTH_*` events carry
`ES_ACTION_TYPE_AUTH`, the rest `ES_ACTION_TYPE_NOTIFY`. -/
def ESEventType.actionType : ESEventType → ESAction
  | .authOpen => .auth
  | .authCreate => .auth
  | .authUnlink => .auth
  | .authRename => .auth
  | .authKextload => .auth
  | .authExec => .auth
  | .authFileProviderMaterialize => .auth
  | .authFileProviderUpdate => .auth
  | .authCopyfile => .auth
  | .authTruncate => .auth
  | _ => .notify

/-- `es_auth_result_t`: the two possible responses. -/
inductive AuthResult where
  | allow
  | deny
deriving DecidableEq

/-- The fields of `es_message_t` the handlers read.  A `none` path models
a null `path.data` pointer. -/
structure ESMessage where
  eventType : ESEventType
  pid : Nat
  ppid : Nat
  uid : Nat
  gid : Nat
  processPath : String
  openFilePath : Option String
  writeTargetPath : Option String
  unlinkTargetPath : Option String
  execTargetPath : String
  signalTargetPid : Nat
  signalNumber : Nat
  setuidUid : Nat
  forkChildPid : Nat
deriving DecidableEq

/-- Per-helper results of the OS introspection calls the collector makes
(libproc, sysctl, Mach) plus the clock `mach_absolute_time`; one field
per helper of `ProcessAnalysis.cpp`. -/
structure OSEnv where
  now : Nat
  taskAllInfo : Nat → Option (Nat × Nat × Nat × Nat × Nat × Nat)
  pidPath : Nat → Option String
  procCommandLine : Nat → String
  procOpenFiles : Nat → List String
  procNetworkConnections : Nat → List String
  procLoadedLibraries : Nat → List String
  procEnvironment : Nat → List (String × String)
  procMemoryUsage : Nat → Nat
  procCPUTime : Nat → Nat
  systemCritical : Nat → Bool

/-- Results of the IOKit device-service enumeration: whether
`IOServiceGetMatchingServices` returns `KERN_SUCCESS` for the audio and
for the video device class. -/
structure IOKitEnv where
  audioServicesAvailable : Bool
  videoServicesAvailable : Bool

/-- The mutable state of the `AudioVideoController` singleton: the two
policy flags, the monitoring flag, the process registry, the bounded
recent-access buffer and the six database tables. -/
structure ControllerState where
  microphoneEnabled : Bool
  cameraEnabled : Bool
  monitoringEnabled : Bool
  runningProcesses : Nat → Option ProcessInfo
  recentFileAccess : List FileAccess
  fileAccessLog : List FileAccess
  networkLog : List NetworkConnection
  syscallLog : List SyscallRecord
  processEventLog : List ProcessEventRecord
  libraryLog : List (Nat × Nat × String)
  envLog : List (Nat × Nat × String × String)

/-- The constructor `AudioVideoController::AudioVideoController`
(`AudioVideoController.cpp` lines 20-24): both device flags start
enabled, monitoring off, all containers empty. -/
def initialControllerState : ControllerState where
  microphoneEnabled := true
  cameraEnabled := true
  monitoringEnabled := false
  runningProcesses := fun _ => none
  recentFileAccess := []
  fileAccessLog := []
  networkLog := []
  syscallLog := []
  processEventLog := []
  libraryLog := []
  envLog := []

/-- `logFileAccess` (`DatabaseLogging.cpp` lines 95-116): one `INSERT`
into the `file_access` table. -/
def logFileAccess (s : ControllerState) (a : FileAccess) : ControllerState :=
  { s with fileAccessLog := s.fileAccessLog ++ [a] }

/-- `logNetworkEvent` (`DatabaseLogging.cpp` lines 69-93): one `INSERT`
into the `network_connections` table. -/
def logNetworkEvent (s : ControllerState) (c : NetworkConnection) : ControllerState :=
  { s with networkLog := s.networkLog ++ [c] }

/-- `logSystemCall` (`DatabaseLogging.cpp` lines 118-138): one `INSERT`
into the `system_calls` table, return value bound to the literal `"0"`. -/
def logSystemCall (env : OSEnv) (s : ControllerState) (pid : Nat)
    (name args : String) : ControllerState :=
  { s with syscallLog := s.syscallLog ++
      [{ timestamp := env.now, pid := pid, syscallName := name,
         arguments := args, returnValue := "0" }] }

/-- `logProcessEvent` (`DatabaseLogging.cpp` lines 4-67): a parent row in
`process_events`, then one `file_access` row per open file, one
`loaded_libraries` row per module and one `environment_vars` row per
variable. -/
def logProcessEvent (s : ControllerState) (p : ProcessInfo)
    (event : String) : ControllerState :=
  let row : ProcessEventRecord :=
    { timestamp := p.startTime, pid := p.pid, ppid := p.ppid,
      executablePath := p.executablePath, commandLine := p.commandLine,
      bundleIdentifier := p.bundleIdentifier, uid := p.uid, gid := p.gid,
      eventType := event, cpuTime := p.cpuTime,
      memoryUsage := p.memoryUsage, isSystemProcess := p.isSystemProcess }
  let fileRows : List FileAccess :=
    p.openFiles.map (fun f =>
      { pid := p.pid, filePath := f, accessType := "OPEN_FILE",
        timestamp := p.startTime, wasBlocked := false, reason := "" })
  let libRows := p.loadedLibraries.map (fun l => (p.startTime, p.pid, l))
  let envRows :=
    p.environmentVariables.map (fun kv => (p.startTime, p.pid, kv.1, kv.2))
  let s1 := { s with processEventLog := s.processEventLog ++ [row] }
  let s2 := { s1 with fileAccessLog := s1.fileAccessLog ++ fileRows }
  let s3 := { s2 with libraryLog := s2.libraryLog ++ libRows }
  { s3 with envLog := s3.envLog ++ envRows }

/-- `analyzeProcess` (`ProcessAnalysis.cpp` lines 4-48): best-effort
snapshot collection; every sub-query that fails leaves its fields at
their default.  The capability flags are not set by this function. -/
def analyzeProcess (env : OSEnv) (pid : Nat) : ProcessInfo :=
  let base : ProcessInfo :=
    { pid := pid, ppid := 0, executablePath := "", commandLine := "",
      bundleIdentifier := "", uid := 0, gid := 0, startTime := 0,
      cpuTime := 0, memoryUsage := 0, openFiles := [],
      networkConnections := [], loadedLibraries := [],
      environmentVariables := [], isSystemProcess := false,
      hasAudioAccess := false, hasVideoAccess := false,
      hasNetworkAccess := false, hasFileSystemAccess := false }
  let base :=
    match env.taskAllInfo pid with
    | some (ppid, uid, gid, startTime, mem, cpu) =>
      { base with ppid := ppid, uid := uid, gid := gid,
                  startTime := startTime, memoryUsage := mem, cpuTime := cpu }
    | none => base
  let base :=
    match env.pidPath pid with
    | some p => { base with executablePath := p }
    | none => base
  { base with
    commandLine := env.procCommandLine pid,
    openFiles := env.procOpenFiles pid,
    networkConnections := env.procNetworkConnections pid,
    loadedLibraries := env.procLoadedLibraries pid,
    environmentVariables := env.procEnvironment pid,
    isSystemProcess := env.systemCritical pid }

/-- `getProcessInfo` (`ProcessAnalysis.cpp` lines 396-404): cached
registry snapshot when present, fresh synchronous collection otherwise. -/
def getProcessInfo (env : OSEnv) (s : ControllerState) (pid : Nat) : ProcessInfo :=
  match s.runningProcesses pid with
  | some info => info
  | none => analyzeProcess env pid

/-- Audio framework fragments of the capability scan
(`ProcessMonitoring.cpp` lines 94-96). -/
def isAudioFrameworkLib (lib : String) : Bool :=
  strContains lib "AVFoundation" || strContains lib "CoreAudio" ||
    strContains lib "AudioUnit"

/-- Video framework fragments of the capability scan
(`ProcessMonitoring.cpp` lines 99-100). -/
def isVideoFrameworkLib (lib : String) : Bool :=
  strContains lib "AVCapture" || strContains lib "CoreMediaIO"

/-- Network framework fragments of the capability scan
(`ProcessMonitoring.cpp` lines 103-104). -/
def isNetworkFrameworkLib (lib : String) : Bool :=
  strContains lib "Network" || strContains lib "CFNetwork"

/-- One iteration of the capability-classification loop of
`handleProcessExec` (`ProcessMonitoring.cpp` lines 93-107). -/
def capStep (info : ProcessInfo) (lib : String) : ProcessInfo :=
  let i1 := if isAudioFrameworkLib lib then
              { info with hasAudioAccess := true } else info
  let i2 := if isVideoFrameworkLib lib then
              { i1 with hasVideoAccess := true } else i1
  if isNetworkFrameworkLib lib then { i2 with hasNetworkAccess := true } else i2

/-- The capability-classification loop of `handleProcessExec`
(`ProcessMonitoring.cpp` lines 93-107), run over the snapshot's own
loaded-module list. -/
def classifyCapabilities (info : ProcessInfo) : ProcessInfo :=
  List.foldl capStep info info.loadedLibraries

/-- The snapshot `handleProcessExec` builds before the capability scan
(`ProcessMonitoring.cpp` lines 63-91): the fields of `analyzeProcess`
overwritten from the message and the per-helper OS queries, capability
flags reset, filesystem capability set. -/
def execProcessInfo (env : OSEnv) (msg : ESMessage) : ProcessInfo :=
  { analyzeProcess env msg.pid with
    pid := msg.pid, ppid := msg.ppid, executablePath := msg.processPath,
    uid := msg.uid, gid := msg.gid, startTime := env.now,
    commandLine := env.procCommandLine msg.pid,
    openFiles := env.procOpenFiles msg.pid,
    networkConnections := env.procNetworkConnections msg.pid,
    loadedLibraries := env.procLoadedLibraries msg.pid,
    environmentVariables := env.procEnvironment msg.pid,
    memoryUsage := env.procMemoryUsage msg.pid,
    cpuTime := env.procCPUTime msg.pid,
    isSystemProcess := env.systemCritical msg.pid,
    hasAudioAccess := false, hasVideoAccess := false,
    hasNetworkAccess := false, hasFileSystemAccess := true }

/-- `handleProcessExec` (`ProcessMonitoring.cpp` lines 63-117): build the
snapshot, classify capabilities, store it in the registry, log "EXEC". -/
def handleProcessExec (env : OSEnv) (s : ControllerState)
    (msg : ESMessage) : ControllerState :=
  let info := classifyCapabilities (execProcessInfo env msg)
  let s1 := { s with runningProcesses :=
    fun q => if q = msg.pid then some info else s.runningProcesses q }
  logProcessEvent s1 info "EXEC"

/-- `handleProcessExit` (`ProcessMonitoring.cpp` lines 119-132): when the
pid is in the registry, log "EXIT" and erase it; otherwise do nothing. -/
def handleProcessExit (s : ControllerState) (pid : Nat) : ControllerState :=
  match s.runningProcesses pid with
  | some info =>
    let s1 := logProcessEvent s info "EXIT"
    { s1 with runningProcesses :=
        fun q => if q = pid then none else s1.runningProcesses q }
  | none => s

/-- The in-memory retention step of `handleFileOpen`
(`ProcessMonitoring.cpp` lines 163-169): append, then if the buffer holds
more than 10000 entries erase the first 1000 in one batch. -/
def pushRecentFileAccess (buf : List FileAccess) (a : FileAccess) : List FileAccess :=
  if (buf ++ [a]).length > 10000 then (buf ++ [a]).drop 1000 else buf ++ [a]

/-- `handleFileOpen` (`ProcessMonitoring.cpp` lines 134-174): build the
OPEN record, mark it blocked when an audio marker meets a disabled
microphone (or a video marker a disabled camera), persist it and append
it to the bounded recent-access buffer. -/
def handleFileOpen (env : OSEnv) (s : ControllerState)
    (msg : ESMessage) : ControllerState :=
  match msg.openFilePath with
  | none => s
  | some filePath =>
    let isAudioDevice :=
      strContains filePath "/dev/audio" || strContains filePath "coreaudio"
    let isVideoDevice :=
      strContains filePath "/dev/video" || strContains filePath "AVCapture"
    let access : FileAccess :=
      if isAudioDevice && !s.microphoneEnabled then
        { pid := msg.pid, filePath := filePath, accessType := "OPEN",
          timestamp := env.now, wasBlocked := true,
          reason := "Microphone disabled by system extension" }
      else if isVideoDevice && !s.cameraEnabled then
        { pid := msg.pid, filePath := filePath, accessType := "OPEN",
          timestamp := env.now, wasBlocked := true,
          reason := "Camera disabled by system extension" }
      else
        { pid := msg.pid, filePath := filePath, accessType := "OPEN",
          timestamp := env.now, wasBlocked := false, reason := "" }
    let s1 := logFileAccess s access
    { s1 with recentFileAccess := pushRecentFileAccess s1.recentFileAccess access }

/-- `handleFileWrite` (`ProcessMonitoring.cpp` lines 176-194): build the
WRITE record (never blocked) and persist it. -/
def handleFileWrite (env : OSEnv) (s : ControllerState)
    (msg : ESMessage) : ControllerState :=
  match msg.writeTargetPath with
  | none => s
  | some filePath =>
    logFileAccess s
      { pid := msg.pid, filePath := filePath, accessType := "WRITE",
        timestamp := env.now, wasBlocked := false, reason := "" }

/-- `handleFileDelete` (`ProcessMonitoring.cpp` lines 196-214): build the
DELETE record (never blocked) and persist it. -/
def handleFileDelete (env : OSEnv) (s : ControllerState)
    (msg : ESMessage) : ControllerState :=
  match msg.unlinkTargetPath with
  | none => s
  | some filePath =>
    logFileAccess s
      { pid := msg.pid, filePath := filePath, accessType := "DELETE",
        timestamp := env.now, wasBlocked := false, reason := "" }

/-- `handleMmap` (`ProcessMonitoring.cpp` lines 216-223). -/
def handleMmap (env : OSEnv) (s : ControllerState) (msg : ESMessage) : ControllerState :=
  logSystemCall env s msg.pid "mmap" "Memory mapping event"

/-- `handleSignal` (`ProcessMonitoring.cpp` lines 225-236). -/
def handleSignal (env : OSEnv) (s : ControllerState) (msg : ESMessage) : ControllerState :=
  logSystemCall env s msg.pid "kill"
    ("signal=" ++ toString msg.signalNumber ++ " target_pid=" ++
      toString msg.signalTargetPid)

/-- `handleFork` (`ProcessMonitoring.cpp` lines 238-246). -/
def handleFork (env : OSEnv) (s : ControllerState) (msg : ESMessage) : ControllerState :=
  logSystemCall env s msg.pid "fork" "Process forked"

/-- `handleSetuid` (`ProcessMonitoring.cpp` lines 248-257). -/
def handleSetuid (env : OSEnv) (s : ControllerState) (msg : ESMessage) : ControllerState :=
  logSystemCall env s msg.pid "setuid" ("new_uid=" ++ toString msg.setuidUid)

/-- The audio-device markers of the `ES_EVENT_TYPE_AUTH_OPEN` branch of
`handleESEvent` in `AudioVideoController.cpp` (lines 287-288). -/
def ctlAudioMarker (path : String) : Bool :=
  strContains path "/dev/audio" || strContains path "coreaudio" ||
    strContains path "AudioUnit" || strContains path "AVAudioEngine"

/-- The video-device markers of the `ES_EVENT_TYPE_AUTH_OPEN` branch of
`handleESEvent` in `AudioVideoController.cpp` (lines 301-302). -/
def ctlVideoMarker (path : String) : Bool :=
  strContains path "/dev/video" || strContains path "AVCapture" ||
    strContains path "CoreMediaIO" || strContains path "VDCAssistant"

/-- The `handleESEvent` definition of `AudioVideoController.cpp`
(lines 277-334): the list of `es_respond_auth_result` responses it
issues for one message.  `AUTH_OPEN` is classified against the device
markers and answered from the policy flags; `NOTIFY_EXEC` only logs; any
other event is answered `ALLOW` exactly when it is authorization-class. -/
def handleESEventController (s : ControllerState) (msg : ESMessage) : List AuthResult :=
  match msg.eventType with
  | .authOpen =>
    match msg.openFilePath with
    | some path =>
      if ctlAudioMarker path then
        [if s.microphoneEnabled then AuthResult.allow else AuthResult.deny]
      else if ctlVideoMarker path then
        [if s.cameraEnabled then AuthResult.allow else AuthResult.deny]
      else
        [AuthResult.allow]
    | none => [AuthResult.allow]
  | .notifyExec => []
  | t => if t.actionType = ESAction.auth then [AuthResult.allow] else []

/-- The `handleESEvent` definition of `ProcessMonitoring.cpp`
(lines 4-61): route the message to its handler (updating the state),
then respond `ALLOW` exactly when the message is authorization-class. -/
def handleESEventMonitoring (env : OSEnv) (s : ControllerState)
    (msg : ESMessage) : ControllerState × List AuthResult :=
  let s1 :=
    match msg.eventType with
    | .notifyExec => handleProcessExec env s msg
    | .notifyExit => handleProcessExit s msg.pid
    | .notifyFork => handleFork env s msg
    | .authOpen | .notifyOpen => handleFileOpen env s msg
    | .notifyWrite => handleFileWrite env s msg
    | .authUnlink | .notifyUnlink => handleFileDelete env s msg
    | .notifyMmap => handleMmap env s msg
    | .notifySignal => handleSignal env s msg
    | .notifySetuid => handleSetuid env s msg
    | _ => s
  (s1, if msg.eventType.actionType = ESAction.auth then [AuthResult.allow] else [])

/-- `controlAudioDevices` (`AudioVideoController.cpp` lines 360-386):
best-effort IOKit pass over the audio device services; returns false
exactly when the service enumeration fails, the enable flag only drives
logging. -/
def controlAudioDevices (env : IOKitEnv) : Bool → Bool :=
  fun _ => env.audioServicesAvailable

/-- `controlVideoDevices` (`AudioVideoController.cpp` lines 388-413). -/
def controlVideoDevices (env : IOKitEnv) : Bool → Bool :=
  fun _ => env.videoServicesAvailable

/-- `disableMicrophone` (`AudioVideoController.cpp` lines 336-340). -/
def disableMicrophone (env : IOKitEnv) (s : ControllerState) : ControllerState × Bool :=
  ({ s with microphoneEnabled := false }, controlAudioDevices env false)

/-- `enableMicrophone` (`AudioVideoController.cpp` lines 342-346). -/
def enableMicrophone (env : IOKitEnv) (s : ControllerState) : ControllerState × Bool :=
  ({ s with microphoneEnabled := true }, controlAudioDevices env true)

/-- `disableCamera` (`AudioVideoController.cpp` lines 348-352). -/
def disableCamera (env : IOKitEnv) (s : ControllerState) : ControllerState × Bool :=
  ({ s with cameraEnabled := false }, controlVideoDevices env false)

/-- `enableCamera` (`AudioVideoController.cpp` lines 354-358). -/
def enableCamera (env : IOKitEnv) (s : ControllerState) : ControllerState × Bool :=
  ({ s with cameraEnabled := true }, controlVideoDevices env true)

/-- Descending-timestamp order on network rows: the embedding of
`ORDER BY timestamp DESC` for the `network_connections` table. -/
abbrev tsGeNet (a b : NetworkConnection) : Prop := b.timestamp ≤ a.timestamp

instance : DecidableRel tsGeNet := fun a b => Nat.decLe b.timestamp a.timestamp

instance : IsTotal NetworkConnection tsGeNet :=
  ⟨fun a b => Nat.le_total b.timestamp a.timestamp⟩

instance : IsTrans NetworkConnection tsGeNet :=
  ⟨fun _ _ _ hab hbc => Nat.le_trans hbc hab⟩

/-- Descending-timestamp order on file-access rows: the embedding of
`ORDER BY timestamp DESC` for the `file_access` table. -/
abbrev tsGeFile (a b : FileAccess) : Prop := b.timestamp ≤ a.timestamp

instance : DecidableRel tsGeFile := fun a b => Nat.decLe b.timestamp a.timestamp

instance : IsTotal FileAccess tsGeFile :=
  ⟨fun a b => Nat.le_total b.timestamp a.timestamp⟩

instance : IsTrans FileAccess tsGeFile :=
  ⟨fun _ _ _ hab hbc => Nat.le_trans hbc hab⟩

/-- `getNetworkConnections` (`DatabaseLogging.cpp` lines 140-176):
`SELECT * FROM network_connections ORDER BY timestamp DESC LIMIT 1000`. -/
def getNetworkConnections (s : ControllerState) : List NetworkConnection :=
  (List.insertionSort tsGeNet s.networkLog).take 1000

/-- `getFileAccessHistory` (`DatabaseLogging.cpp` lines 178-209):
`SELECT * FROM file_access ORDER BY timestamp DESC LIMIT 5000`. -/
def getFileAccessHistory (s : ControllerState) : List FileAccess :=
  (List.insertionSort tsGeFile s.fileAccessLog).take 5000

/-- An `AUTH_OPEN` message for a given pid and target path, the other
fields at rest. -/
def mkAuthOpenMsg (pid : Nat) (path : String) : ESMessage :=
  { eventType := .authOpen, pid := pid, ppid := 0, uid := 0, gid := 0,
    processPath := "", openFilePath := some path, writeTargetPath := none,
    unlinkTargetPath := none, execTargetPath := "", signalTargetPid := 0,
    signalNumber := 0, setuidUid := 0, forkChildPid := 0 }

/-- A concrete OS-introspection environment in which every query fails or
returns empty, used to instantiate universally quantified theorems. -/
def sampleOSEnv : OSEnv where
  now := 5
  taskAllInfo := fun _ => none
  pidPath := fun _ => none
  procCommandLine := fun _ => ""
  procOpenFiles := fun _ => []
  procNetworkConnections := fun _ => []
  procLoadedLibraries := fun _ => []
  procEnvironment := fun _ => []
  procMemoryUsage := fun _ => 0
  procCPUTime := fun _ => 0
  systemCritical := fun _ => false

/-- A concrete file-access record used to instantiate universally
quantified theorems. -/
def sampleFileAccess : FileAccess where
  pid := 1
  filePath := "/tmp/a"
  accessType := "OPEN"
  timestamp := 0
  wasBlocked := false
  reason := ""

/-- A concrete process snapshot used to instantiate universally
quantified theorems. -/
def sampleProcessInfo : ProcessInfo where
  pid := 7
  ppid := 1
  executablePath := "/bin/x"
  commandLine := ""
  bundleIdentifier := ""
  uid := 0
  gid := 0
  startTime := 3
  cpuTime := 0
  memoryUsage := 0
  openFiles := []
  networkConnections := []
  loadedLibraries := []
  environmentVariables := []
  isSystemProcess := false
  hasAudioAccess := false
  hasVideoAccess := false
  hasNetworkAccess := false
  hasFileSystemAccess := false

/-- A controller state whose registry holds exactly pid 7. -/
def stateWithPid7 : ControllerState :=
  { initialControllerState with
    runningProcesses := fun q => if q = 7 then some sampleProcessInfo else none }

/-- The initial state after `disableMicrophone` took effect on the flag. -/
def micOffState : ControllerState :=
  { initialControllerState with microphoneEnabled := false }

/-- The initial state after `disableCamera` took effect on the flag. -/
def camOffState : ControllerState :=
  { initialControllerState with cameraEnabled := false }

/-- An IOKit environment in which both device enumerations fail. -/
def ioFailEnv : IOKitEnv where
  audioServicesAvailable := false
  videoServicesAvailable := false

/-- An IOKit environment in which both device enumerations succeed. -/
def ioOkEnv : IOKitEnv where
  audioServicesAvailable := true
  videoServicesAvailable := true

/-- An `AUTH_CREATE` message — an authorization-class event kind with no
specific branch in either dispatcher — used to instantiate universally
quantified theorems. -/
def sampleAuthCreateMsg : ESMessage :=
  { eventType := .authCreate, pid := 4, ppid := 0, uid := 0, gid := 0,
    processPath := "", openFilePath := none, writeTargetPath := none,
    unlinkTargetPath := none, execTargetPath := "", signalTargetPid := 0,
    signalNumber := 0, setuidUid := 0, forkChildPid := 0 }

/-- A message carrying both a write target and an unlink target, used to
instantiate universally quantified theorems. -/
def sampleFileMsg : ESMessage :=
  { eventType := .notifyWrite, pid := 9, ppid := 0, uid := 0, gid := 0,
    processPath := "", openFilePath := none,
    writeTargetPath := some "/tmp/w", unlinkTargetPath := some "/tmp/d",
    execTargetPath := "", signalTargetPid := 0, signalNumber := 0,
    setuidUid := 0, forkChildPid := 0 }

/-- The audio-capability flag after one classification step: set exactly
when it was set or the module matches an audio fragment. -/
theorem capStep_hasAudio (info : ProcessInfo) (lib : String) :
    (capStep info lib).hasAudioAccess =
      (info.hasAudioAccess || isAudioFrameworkLib lib) := by
  unfold capStep
  by_cases h1 : isAudioFrameworkLib lib <;>
    by_cases h2 : isVideoFrameworkLib lib <;>
      by_cases h3 : isNetworkFrameworkLib lib <;>
        simp [h1, h2, h3]

/-- The video-capability flag after one classification step. -/
theorem capStep_hasVideo (info : ProcessInfo) (lib : String) :
    (capStep info lib).hasVideoAccess =
      (info.hasVideoAccess || isVideoFrameworkLib lib) := by
  unfold capStep
  by_cases h1 : isAudioFrameworkLib lib <;>
    by_cases h2 : isVideoFrameworkLib lib <;>
      by_cases h3 : isNetworkFrameworkLib lib <;>
        simp [h1, h2, h3]

/-- The network-capability flag after one classification step. -/
theorem capStep_hasNetwork (info : ProcessInfo) (lib : String) :
    (capStep info lib).hasNetworkAccess =
      (info.hasNetworkAccess || isNetworkFrameworkLib lib) := by
  unfold capStep
  by_cases h1 : isAudioFrameworkLib lib <;>
    by_cases h2 : isVideoFrameworkLib lib <;>
      by_cases h3 : isNetworkFrameworkLib lib <;>
        simp [h1, h2, h3]

/-- The classification loop sets the audio flag exactly when it was
already set or some module matches an audio fragment. -/
theorem foldl_capStep_hasAudio (libs : List String) :
    ∀ info : ProcessInfo, (List.foldl capStep info libs).hasAudioAccess =
      (info.hasAudioAccess || libs.any isAudioFrameworkLib) := by
  induction libs with
  | nil => intro info; simp
  | cons l t ih =>
    intro info
    simp only [List.foldl_cons, List.any_cons]
    rw [ih, capStep_hasAudio]
    cases info.hasAudioAccess <;> cases isAudioFrameworkLib l <;> simp

/-- The classification loop sets the video flag exactly when it was
already set or some module matches a video fragment. -/
theorem foldl_capStep_hasVideo (libs : List String) :
    ∀ info : ProcessInfo, (List.foldl capStep info libs).hasVideoAccess =
      (info.hasVideoAccess || libs.any isVideoFrameworkLib) := by
  induction libs with
  | nil => intro info; simp
  | cons l t ih =>
    intro info
    simp only [List.foldl_cons, List.any_cons]
    rw [ih, capStep_hasVideo]
    cases info.hasVideoAccess <;> cases isVideoFrameworkLib l <;> simp

/-- The classification loop sets the network flag exactly when it was
already set or some module matches a network fragment. -/
theorem foldl_capStep_hasNetwork (libs : List String) :
    ∀ info : ProcessInfo, (List.foldl capStep info libs).hasNetworkAccess =
      (info.hasNetworkAccess || libs.any isNetworkFrameworkLib) := by
  induction libs with
  | nil => intro info; simp
  | cons l t ih =>
    intro info
    simp only [List.foldl_cons, List.any_cons]
    rw [ih, capStep_hasNetwork]
    cases info.hasNetworkAccess <;> cases isNetworkFrameworkLib l <;> simp

/-- Taking the first `n` entries of an insertion sort yields at most `n`
entries, sorted, and together with the dropped remainder a permutation of
the input in which every kept entry is at least every dropped one. -/
theorem sortedTakeSpec {α : Type} (r : α → α → Prop) [DecidableRel r]
    [IsTotal α r] [IsTrans α r] (l : List α) (n : Nat) :
    ((List.insertionSort r l).take n).length = min n l.length ∧
    List.Sorted r ((List.insertionSort r l).take n) ∧
    List.Perm (((List.insertionSort r l).take n) ++
      ((List.insertionSort r l).drop n)) l ∧
    (∀ a ∈ (List.insertionSort r l).take n,
      ∀ b ∈ (List.insertionSort r l).drop n, r a b) := by
  have hperm := List.perm_insertionSort r l
  have hsort := List.sorted_insertionSort r l
  refine ⟨?_, ?_, ?_, ?_⟩
  · rw [List.length_take, hperm.length_eq]
  · exact List.Pairwise.sublist (List.take_sublist n _) hsort
  · rw [List.take_append_drop]; exact hperm
  · have h2 : List.Pairwise r (((List.insertionSort r l).take n) ++
        ((List.insertionSort r l).drop n)) := by
      rw [List.take_append_drop]; exact hsort
    exact (List.pairwise_append.mp h2).2.2

/-- Claim C1 (amended): for an authorization device-open event carrying a
path, the response is decided by first-match classification — a path
containing an audio marker is answered from the microphone flag (ALLOW
iff enabled); a path containing a video marker and no audio marker is
answered from the camera flag; a path matching neither marker set is
answered ALLOW. -/
theorem authOpen_decision (s : ControllerState) (msg : ESMessage) (path : String)
    (he : msg.eventType = ESEventType.authOpen)
    (hp : msg.openFilePath = some path) :
    handleESEventController s msg =
      [if ctlAudioMarker path then
        (if s.microphoneEnabled then AuthResult.allow else AuthResult.deny)
       else if ctlVideoMarker path then
        (if s.cameraEnabled then AuthResult.allow else AuthResult.deny)
       else AuthResult.allow] := by
  simp only [handleESEventController, he, hp]
  split_ifs <;> rfl

/-- Claim C1, witness: the amended decision rule evaluated on the path
`/dev/audio1` with the microphone disabled. -/
theorem authOpen_decision_witness :
    (mkAuthOpenMsg 1 "/dev/audio1").eventType = ESEventType.authOpen ∧
    (mkAuthOpenMsg 1 "/dev/audio1").openFilePath = some "/dev/audio1" ∧
    handleESEventController micOffState (mkAuthOpenMsg 1 "/dev/audio1") =
      [if ctlAudioMarker "/dev/audio1" then
        (if micOffState.microphoneEnabled then AuthResult.allow else AuthResult.deny)
       else if ctlVideoMarker "/dev/audio1" then
        (if micOffState.cameraEnabled then AuthResult.allow else AuthResult.deny)
       else AuthResult.allow] :=
  ⟨rfl, rfl,
    authOpen_decision micOffState (mkAuthOpenMsg 1 "/dev/audio1") "/dev/audio1" rfl rfl⟩

/-- Claim C1, counterexample to the claim as frozen: the path
`AVCaptureAudioUnit` contains a video marker and the camera is disabled,
so the claim requires DENY, but the dispatcher answers ALLOW because the
path also contains an audio marker and the audio check runs first
(microphone enabled). -/
theorem authOpen_videoMarker_counterexample :
    ctlVideoMarker "AVCaptureAudioUnit" = true ∧
    camOffState.cameraEnabled = false ∧
    handleESEventController camOffState (mkAuthOpenMsg 1 "AVCaptureAudioUnit") =
      [AuthResult.allow] :=
  ⟨rfl, rfl, rfl⟩

/-- Claim C2: each of the two dispatcher definitions issues exactly one
response for an authorization-class message and no response at all for a
notify-class message; the monitoring dispatcher's response is always
ALLOW, and every response the controller dispatcher issues for an event
other than `AUTH_OPEN` — in particular for every authorization-class
kind with no specific branch — is the default ALLOW. -/
theorem authEvents_exactlyOneResponse (env : OSEnv) (s : ControllerState)
    (msg : ESMessage) :
    (handleESEventMonitoring env s msg).2 =
      (if msg.eventType.actionType = ESAction.auth then [AuthResult.allow] else []) ∧
    (handleESEventController s msg).length =
      (if msg.eventType.actionType = ESAction.auth then 1 else 0) ∧
    (∀ r ∈ handleESEventController s msg,
      msg.eventType = ESEventType.authOpen ∨ r = AuthResult.allow) := by
  refine ⟨rfl, ?_, ?_⟩
  · cases het : msg.eventType <;>
      simp only [handleESEventController, het, ESEventType.actionType] <;>
      try rfl
    cases hp : msg.openFilePath <;> simp only [hp] <;> try rfl
    split_ifs <;> rfl
  · intro r hr
    by_cases hA : msg.eventType = ESEventType.authOpen
    · exact Or.inl hA
    · refine Or.inr ?_
      cases het : msg.eventType <;>
        simp only [handleESEventController, het, ESEventType.actionType] at hr <;>
        simp_all

/-- Claim C2, witness: both dispatchers evaluated on an `AUTH_CREATE`
message, an authorization-class kind neither dispatcher handles
specifically: one response, and it is ALLOW. -/
theorem authEvents_exactlyOneResponse_witness :
    (handleESEventMonitoring sampleOSEnv initialControllerState sampleAuthCreateMsg).2 =
      (if sampleAuthCreateMsg.eventType.actionType = ESAction.auth then
        [AuthResult.allow] else []) ∧
    (handleESEventController initialControllerState sampleAuthCreateMsg).length =
      (if sampleAuthCreateMsg.eventType.actionType = ESAction.auth then 1 else 0) ∧
    (∀ r ∈ handleESEventController initialControllerState sampleAuthCreateMsg,
      sampleAuthCreateMsg.eventType = ESEventType.authOpen ∨ r = AuthResult.allow) :=
  authEvents_exactlyOneResponse sampleOSEnv initialControllerState sampleAuthCreateMsg

/-- Claim C3: a device-open authorization for a path containing
`/dev/audio` while the microphone is disabled is denied by the controller
dispatcher, and the file-open handler persists a FileAccess record marked
blocked with the microphone-disablement reason (and appends it to the
recent-access buffer). -/
theorem blockedAudioOpen (env : OSEnv) (s : ControllerState) (msg : ESMessage)
    (path : String)
    (hmic : s.microphoneEnabled = false)
    (he : msg.eventType = ESEventType.authOpen)
    (hp : msg.openFilePath = some path)
    (ha : strContains path "/dev/audio" = true) :
    handleESEventController s msg = [AuthResult.deny] ∧
    (handleFileOpen env s msg).fileAccessLog = s.fileAccessLog ++
      [{ pid := msg.pid, filePath := path, accessType := "OPEN",
         timestamp := env.now, wasBlocked := true,
         reason := "Microphone disabled by system extension" }] ∧
    (handleFileOpen env s msg).recentFileAccess =
      pushRecentFileAccess s.recentFileAccess
        { pid := msg.pid, filePath := path, accessType := "OPEN",
          timestamp := env.now, wasBlocked := true,
          reason := "Microphone disabled by system extension" } := by
  have hm : ctlAudioMarker path = true := by simp [ctlAudioMarker, ha]
  refine ⟨?_, ?_, ?_⟩
  · simp [handleESEventController, he, hp, hm, hmic]
  · simp [handleFileOpen, hp, logFileAccess, hmic, ha]
  · simp [handleFileOpen, hp, logFileAccess, hmic, ha]

/-- Claim C3, witness: the scenario evaluated at the path `/dev/audio1`
with the microphone disabled. -/
theorem blockedAudioOpen_witness :
    micOffState.microphoneEnabled = false ∧
    (mkAuthOpenMsg 42 "/dev/audio1").eventType = ESEventType.authOpen ∧
    (mkAuthOpenMsg 42 "/dev/audio1").openFilePath = some "/dev/audio1" ∧
    strContains "/dev/audio1" "/dev/audio" = true ∧
    (handleESEventController micOffState (mkAuthOpenMsg 42 "/dev/audio1") =
       [AuthResult.deny] ∧
     (handleFileOpen sampleOSEnv micOffState (mkAuthOpenMsg 42 "/dev/audio1")).fileAccessLog =
       micOffState.fileAccessLog ++
       [{ pid := (mkAuthOpenMsg 42 "/dev/audio1").pid, filePath := "/dev/audio1",
          accessType := "OPEN", timestamp := sampleOSEnv.now, wasBlocked := true,
          reason := "Microphone disabled by system extension" }] ∧
     (handleFileOpen sampleOSEnv micOffState (mkAuthOpenMsg 42 "/dev/audio1")).recentFileAccess =
       pushRecentFileAccess micOffState.recentFileAccess
         { pid := (mkAuthOpenMsg 42 "/dev/audio1").pid, filePath := "/dev/audio1",
           accessType := "OPEN", timestamp := sampleOSEnv.now, wasBlocked := true,
           reason := "Microphone disabled by system extension" }) :=
  ⟨rfl, rfl, rfl, rfl,
    blockedAudioOpen sampleOSEnv micOffState (mkAuthOpenMsg 42 "/dev/audio1")
      "/dev/audio1" rfl rfl rfl rfl⟩

/-- Claim C4: starting from a buffer within the 10000-entry bound, one
append keeps the bound; when the append pushes the size past 10000 the
result is exactly the appended buffer with its 1000 oldest entries
dropped in one batch (relative order preserved), otherwise it is exactly
the appended buffer. -/
theorem recentBuffer_bounded (buf : List FileAccess) (a : FileAccess)
    (h : buf.length ≤ 10000) :
    (pushRecentFileAccess buf a).length ≤ 10000 ∧
    ((buf ++ [a]).length > 10000 →
      pushRecentFileAccess buf a = (buf ++ [a]).drop 1000) ∧
    ((buf ++ [a]).length ≤ 10000 → pushRecentFileAccess buf a = buf ++ [a]) := by
  have hlen : (buf ++ [a]).length = buf.length + 1 := by simp
  refine ⟨?_, ?_, ?_⟩
  · unfold pushRecentFileAccess
    split_ifs with hc
    · rw [List.length_drop, hlen]
      omega
    · rw [hlen]
      omega
  · intro hgt
    unfold pushRecentFileAccess
    rw [if_pos hgt]
  · intro hle
    unfold pushRecentFileAccess
    rw [if_neg (by omega)]

/-- Claim C4, witness: one append to the empty buffer. -/
theorem recentBuffer_bounded_witness :
    ([] : List FileAccess).length ≤ 10000 ∧
    ((pushRecentFileAccess [] sampleFileAccess).length ≤ 10000 ∧
     (([] ++ [sampleFileAccess]).length > 10000 →
       pushRecentFileAccess [] sampleFileAccess =
         ([] ++ [sampleFileAccess]).drop 1000) ∧
     (([] ++ [sampleFileAccess]).length ≤ 10000 →
       pushRecentFileAccess [] sampleFileAccess = [] ++ [sampleFileAccess])) :=
  ⟨by decide, recentBuffer_bounded [] sampleFileAccess (by decide)⟩

/-- Claim C5, counterexample to the claim as frozen: when the IOKit audio
service enumeration fails, `enableMicrophone` still sets the flag but
reports failure, so "both calls report success" does not hold
unconditionally. -/
theorem enableMicrophone_reportsFailure :
    (enableMicrophone ioFailEnv initialControllerState).1.microphoneEnabled = true ∧
    (enableMicrophone ioFailEnv initialControllerState).2 = false :=
  ⟨rfl, rfl⟩

/-- Claim C5 (amended): the policy mutators are idempotent — two
consecutive enable-microphone calls leave the flag true after each call,
and both report success provided the best-effort device enumeration
succeeds; `enableCamera` on an already-enabled camera leaves the state
unchanged and reports success under the same proviso. -/
theorem policyMutators_idempotent (env : IOKitEnv) (s : ControllerState)
    (ha : env.audioServicesAvailable = true)
    (hv : env.videoServicesAvailable = true)
    (hcam : s.cameraEnabled = true) :
    (enableMicrophone env s).1.microphoneEnabled = true ∧
    (enableMicrophone env (enableMicrophone env s).1).1.microphoneEnabled = true ∧
    (enableMicrophone env s).2 = true ∧
    (enableMicrophone env (enableMicrophone env s).1).2 = true ∧
    (enableCamera env s).1 = s ∧
    (enableCamera env s).2 = true := by
  refine ⟨rfl, rfl, ?_, ?_, ?_, ?_⟩
  · simpa [enableMicrophone, controlAudioDevices] using ha
  · simpa [enableMicrophone, controlAudioDevices] using ha
  · cases s
    simp_all [enableCamera]
  · simpa [enableCamera, controlVideoDevices] using hv

/-- Claim C5, witness: the amended idempotence facts evaluated in an
environment where both device enumerations succeed. -/
theorem policyMutators_idempotent_witness :
    ioOkEnv.audioServicesAvailable = true ∧
    ioOkEnv.videoServicesAvailable = true ∧
    initialControllerState.cameraEnabled = true ∧
    ((enableMicrophone ioOkEnv initialControllerState).1.microphoneEnabled = true ∧
     (enableMicrophone ioOkEnv
       (enableMicrophone ioOkEnv initialControllerState).1).1.microphoneEnabled = true ∧
     (enableMicrophone ioOkEnv initialControllerState).2 = true ∧
     (enableMicrophone ioOkEnv
       (enableMicrophone ioOkEnv initialControllerState).1).2 = true ∧
     (enableCamera ioOkEnv initialControllerState).1 = initialControllerState ∧
     (enableCamera ioOkEnv initialControllerState).2 = true) :=
  ⟨rfl, rfl, rfl,
    policyMutators_idempotent ioOkEnv initialControllerState rfl rfl rfl⟩

/-- Claim C6: `getProcessInfo` returns the cached registry snapshot when
one is present; after a process-exit event the pid is no longer in the
registry and a subsequent lookup falls back to a fresh synchronous
collection (a total function — it never throws). -/
theorem getProcessInfo_cacheAndFallback (env : OSEnv) (s : ControllerState)
    (pid : Nat) (info : ProcessInfo)
    (hc : s.runningProcesses pid = some info) :
    getProcessInfo env s pid = info ∧
    (handleProcessExit s pid).runningProcesses pid = none ∧
    getProcessInfo env (handleProcessExit s pid) pid = analyzeProcess env pid := by
  have h2 : (handleProcessExit s pid).runningProcesses pid = none := by
    unfold handleProcessExit
    rw [hc]
    simp [logProcessEvent]
  refine ⟨?_, h2, ?_⟩
  · simp [getProcessInfo, hc]
  · simp [getProcessInfo, h2]

/-- Claim C6, witness: the cache hit, removal and fallback evaluated on a
registry holding exactly pid 7. -/
theorem getProcessInfo_cacheAndFallback_witness :
    stateWithPid7.runningProcesses 7 = some sampleProcessInfo ∧
    (getProcessInfo sampleOSEnv stateWithPid7 7 = sampleProcessInfo ∧
     (handleProcessExit stateWithPid7 7).runningProcesses 7 = none ∧
     getProcessInfo sampleOSEnv (handleProcessExit stateWithPid7 7) 7 =
       analyzeProcess sampleOSEnv 7) :=
  ⟨rfl, getProcessInfo_cacheAndFallback sampleOSEnv stateWithPid7 7 sampleProcessInfo rfl⟩

/-- Claim C7: each history reader returns at most its limit (1000 network
rows, 5000 file rows), ordered newest-first by timestamp, and what it
returns are the most recent rows — the returned rows together with some
remainder are a permutation of the table, and every returned row is at
least as recent as every remaining one. -/
theorem auditHistory_newestFirst (s : ControllerState) :
    ((getNetworkConnections s).length = min 1000 s.networkLog.length ∧
     List.Sorted tsGeNet (getNetworkConnections s) ∧
     ∃ rest, List.Perm (getNetworkConnections s ++ rest) s.networkLog ∧
       ∀ a ∈ getNetworkConnections s, ∀ b ∈ rest, b.timestamp ≤ a.timestamp) ∧
    ((getFileAccessHistory s).length = min 5000 s.fileAccessLog.length ∧
     List.Sorted tsGeFile (getFileAccessHistory s) ∧
     ∃ rest, List.Perm (getFileAccessHistory s ++ rest) s.fileAccessLog ∧
       ∀ a ∈ getFileAccessHistory s, ∀ b ∈ rest, b.timestamp ≤ a.timestamp) := by
  obtain ⟨h1, h2, h3, h4⟩ := sortedTakeSpec tsGeNet s.networkLog 1000
  obtain ⟨g1, g2, g3, g4⟩ := sortedTakeSpec tsGeFile s.fileAccessLog 5000
  exact ⟨⟨h1, h2, ⟨_, h3, h4⟩⟩, ⟨g1, g2, ⟨_, g3, g4⟩⟩⟩

/-- Claim C8: the snapshot the process-exec handler stores in the
registry has its audio capability flag true iff some loaded module path
contains an audio framework fragment, and analogously for the video and
network flags. -/
theorem processExec_capabilities (env : OSEnv) (s : ControllerState)
    (msg : ESMessage) :
    (handleProcessExec env s msg).runningProcesses msg.pid =
      some (classifyCapabilities (execProcessInfo env msg)) ∧
    (classifyCapabilities (execProcessInfo env msg)).hasAudioAccess =
      (env.procLoadedLibraries msg.pid).any isAudioFrameworkLib ∧
    (classifyCapabilities (execProcessInfo env msg)).hasVideoAccess =
      (env.procLoadedLibraries msg.pid).any isVideoFrameworkLib ∧
    (classifyCapabilities (execProcessInfo env msg)).hasNetworkAccess =
      (env.procLoadedLibraries msg.pid).any isNetworkFrameworkLib := by
  refine ⟨?_, ?_, ?_, ?_⟩
  · simp [handleProcessExec, logProcessEvent]
  · rw [classifyCapabilities, foldl_capStep_hasAudio]
    simp [execProcessInfo]
  · rw [classifyCapabilities, foldl_capStep_hasVideo]
    simp [execProcessInfo]
  · rw [classifyCapabilities, foldl_capStep_hasNetwork]
    simp [execProcessInfo]

/-- Claim C9: at construction both device flags are true, and in that
state every device-open authorization — whatever its path — is answered
ALLOW. -/
theorem initialState_allowsAll :
    initialControllerState.microphoneEnabled = true ∧
    initialControllerState.cameraEnabled = true ∧
    ∀ pid path, handleESEventController initialControllerState
      (mkAuthOpenMsg pid path) = [AuthResult.allow] := by
  refine ⟨rfl, rfl, fun pid path => ?_⟩
  have h : handleESEventController initialControllerState (mkAuthOpenMsg pid path) =
      (if ctlAudioMarker path then [AuthResult.allow]
       else if ctlVideoMarker path then [AuthResult.allow]
       else [AuthResult.allow]) := rfl
  rw [h]
  split_ifs <;> rfl

/-- Claim C10: the records built for file-write and file-delete events
are never blocked and carry an empty reason, whatever the policy flags. -/
theorem writeDelete_neverBlocked (env : OSEnv) (s : ControllerState)
    (msg : ESMessage) (pw pd : String)
    (hw : msg.writeTargetPath = some pw)
    (hd : msg.unlinkTargetPath = some pd) :
    (handleFileWrite env s msg).fileAccessLog = s.fileAccessLog ++
      [{ pid := msg.pid, filePath := pw, accessType := "WRITE",
         timestamp := env.now, wasBlocked := false, reason := "" }] ∧
    (handleFileDelete env s msg).fileAccessLog = s.fileAccessLog ++
      [{ pid := msg.pid, filePath := pd, accessType := "DELETE",
         timestamp := env.now, wasBlocked := false, reason := "" }] := by
  constructor
  · simp [handleFileWrite, hw, logFileAccess]
  · simp [handleFileDelete, hd, logFileAccess]

/-- Claim C10, witness: the write and delete records evaluated on a
concrete message carrying both target paths. -/
theorem writeDelete_neverBlocked_witness :
    sampleFileMsg.writeTargetPath = some "/tmp/w" ∧
    sampleFileMsg.unlinkTargetPath = some "/tmp/d" ∧
    ((handleFileWrite sampleOSEnv initialControllerState sampleFileMsg).fileAccessLog =
       initialControllerState.fileAccessLog ++
       [{ pid := sampleFileMsg.pid, filePath := "/tmp/w", accessType := "WRITE",
          timestamp := sampleOSEnv.now, wasBlocked := false, reason := "" }] ∧
     (handleFileDelete sampleOSEnv initialControllerState sampleFileMsg).fileAccessLog =
       initialControllerState.fileAccessLog ++
       [{ pid := sampleFileMsg.pid, filePath := "/tmp/d", accessType := "DELETE",
          timestamp := sampleOSEnv.now, wasBlocked := false, reason := "" }]) :=
  ⟨rfl, rfl,
    writeDelete_neverBlocked sampleOSEnv initialControllerState sampleFileMsg
      "/tmp/w" "/tmp/d" rfl rfl⟩
